import Mathlib

set_option maxRecDepth 4000

attribute [local semireducible] Rat.mul Rat.add Rat.sub Rat.inv Rat.ofScientific

/-!
Verification of the IFRS 9 quarterly loan-portfolio generator
(`generate_quarterly_data.py`): per-record risk-parameter calculators
(12-month PD, lifetime PD, LGD), the IFRS 9 stage classifier, the ECL
calculator, and the Q3 → Q4 portfolio evolution engine.

Modelling conventions:
* Monetary amounts, probabilities and rates are rationals (`ℚ`); the
  source's float rounding (`round`, pandas `.round(n)`) is modelled by
  `pyRound` / `roundTo`, Python's round-half-to-even on exact rationals.
* The shared NumPy global random source is modelled as an explicit state
  `Rand`: a stream of unit-interval draws (`uni`, used by
  `np.random.uniform`) and a stream of naturals (`nat`, used by index
  selection inside `np.random.choice(..., replace=False)`), plus a cursor
  `pos`.  Every draw advances the single cursor, so the fixed draw order
  of the source is explicit.  Seeding (`np.random.seed(42)`) corresponds
  to fixing the streams.
* `np.random.choice(pool, size=k, replace=False)` is modelled by `sample`:
  `k` successive distinct index picks without replacement, failing
  (`none`) exactly when `k` exceeds the pool size (NumPy raises there).
* Python `int(x)` truncation of the non-negative float `n * frac` is
  modelled by natural division `n * num / 100`.
* The pandas division `0.0 / 0.0` producing NaN (for `ecl_rate` of a
  zero-balance record) is modelled by an `Option ℚ` that is `none` on a
  zero balance; the source raises no exception there.
-/

namespace IFRS9

/-- One loan record; one row of a portfolio snapshot
(columns of `generate_quarterly_data.py` used by the risk pipeline). -/
structure Loan where
  loan_id : String
  reporting_date : ℕ
  product_type : String
  outstanding_balance : ℚ
  credit_score_origination : ℤ
  credit_score_current : ℤ
  days_past_due : ℕ
  pd_12m : ℚ
  pd_lifetime : ℚ
  lgd : ℚ
  ifrs9_stage : ℕ
  ecl_amount : ℚ
  ecl_rate : Option ℚ
deriving DecidableEq, Repr, Inhabited

/-- Explicit state of the shared random source (the NumPy global
generator): a stream of unit-interval uniform draws, a stream of
naturals for index selection, and the current cursor. -/
structure Rand where
  uni : ℕ → ℚ
  nat : ℕ → ℕ
  pos : ℕ

/-- Draw one unit-interval uniform from the source. -/
def Rand.nextU (g : Rand) : ℚ × Rand :=
  (g.uni g.pos, { g with pos := g.pos + 1 })

/-- Draw one natural from the source (used for index selection). -/
def Rand.nextN (g : Rand) : ℕ × Rand :=
  (g.nat g.pos, { g with pos := g.pos + 1 })

/-- `np.random.uniform(a, b)`: one draw, scaled to `[a, b)`. -/
def uniformD (a b : ℚ) (g : Rand) : ℚ × Rand :=
  let p := g.nextU
  (a + (b - a) * p.1, p.2)

/-- Python's `round` / NumPy rounding on an exact rational: round half
to even, returning an integer. -/
def pyRound (q : ℚ) : ℤ :=
  let f := ⌊q⌋
  let r := q - f
  if r < 1/2 then f
  else if 1/2 < r then f + 1
  else if f % 2 = 0 then f else f + 1

/-- pandas `.round(n)`: round half to even at `n` decimal places. -/
def roundTo (n : ℕ) (q : ℚ) : ℚ :=
  (pyRound (q * 10 ^ n) : ℚ) / 10 ^ n

/-- The score-bucket base PD, DPD multiplier and product adjustment of
`calculate_12m_pd` (source lines 126–156), clamped to at most 1. -/
def calculate_12m_pd (r : Loan) : ℚ :=
  let base_pd : ℚ :=
    if 750 ≤ r.credit_score_current then 5/1000
    else if 700 ≤ r.credit_score_current then 1/100
    else if 650 ≤ r.credit_score_current then 25/1000
    else if 600 ≤ r.credit_score_current then 5/100
    else 1/10
  let dpd_multiplier : ℚ :=
    if r.days_past_due = 0 then 1
    else if r.days_past_due ≤ 30 then 2
    else if r.days_past_due ≤ 90 then 4
    else 8
  let product_adj : ℚ :=
    if r.product_type = "Mortgage" then 7/10
    else if r.product_type = "Auto Loan" then 9/10
    else if r.product_type = "Personal Loan" then 12/10
    else if r.product_type = "Credit Card" then 15/10
    else if r.product_type = "SME Loan" then 13/10
    else 1
  min (base_pd * dpd_multiplier * product_adj) 1

/-- `calculate_lifetime_pd` (source lines 158–159). -/
def calculate_lifetime_pd (pd12 : ℚ) : ℚ :=
  min (pd12 * 3) 1

/-- `calculate_lgd` (source lines 161–169): the Python dict literal
evaluates all five `np.random.uniform` calls eagerly, in insertion
order, before `.get` selects one (or the 0.50 default). -/
def calculate_lgd (r : Loan) (g : Rand) : ℚ × Rand :=
  let m := uniformD (15/100) (30/100) g
  let a := uniformD (25/100) (40/100) m.2
  let p := uniformD (50/100) (70/100) a.2
  let c := uniformD (60/100) (80/100) p.2
  let s := uniformD (40/100) (60/100) c.2
  (if r.product_type = "Mortgage" then m.1
   else if r.product_type = "Auto Loan" then a.1
   else if r.product_type = "Personal Loan" then p.1
   else if r.product_type = "Credit Card" then c.1
   else if r.product_type = "SME Loan" then s.1
   else 1/2, s.2)

/-- `calculate_pd_lgd` (source lines 123–179): per row, compute the raw
12-month PD, the lifetime PD from the raw 12-month PD, draw the LGD, and
store the rounded values (6/6/4 decimals).  The source computes whole
columns then rounds; per-row this is the same values in the same draw
order (only the LGD consumes draws, row by row). -/
def calculate_pd_lgd : List Loan → Rand → List Loan × Rand
  | [], g => ([], g)
  | r :: rest, g =>
    let pd12 := calculate_12m_pd r
    let pdlife := calculate_lifetime_pd pd12
    let l := calculate_lgd r g
    let tail := calculate_pd_lgd rest l.2
    ({ r with pd_12m := roundTo 6 pd12,
              pd_lifetime := roundTo 6 pdlife,
              lgd := roundTo 4 l.1 } :: tail.1, tail.2)

/-- `determine_stage` (source lines 185–195): first match wins. -/
def determine_stage (r : Loan) : ℕ :=
  if 90 < r.days_past_due then 3
  else if 30 ≤ r.days_past_due
          ∨ 100 < r.credit_score_origination - r.credit_score_current
          ∨ 3/100 < r.pd_12m then 2
  else 1

/-- `assign_ifrs9_stage` (source lines 182–198). -/
def assign_ifrs9_stage (df : List Loan) : List Loan :=
  df.map fun r => { r with ifrs9_stage := determine_stage r }

/-- `calc_ecl` (source lines 204–212): EAD is the outstanding balance;
Stage 1 uses the 12-month PD, other stages the lifetime PD. -/
def calc_ecl_row (r : Loan) : ℚ :=
  if r.ifrs9_stage = 1 then r.outstanding_balance * r.pd_12m * r.lgd
  else r.outstanding_balance * r.pd_lifetime * r.lgd

/-- `calculate_ecl` (source lines 201–217).  `ecl_rate` is
`ecl_amount / outstanding_balance * 100` rounded to 4 decimals; on a
zero balance the source's float division yields NaN (modelled `none`)
and no exception is raised. -/
def calculate_ecl (df : List Loan) : List Loan :=
  df.map fun r =>
    let amt := roundTo 2 (calc_ecl_row r)
    { r with ecl_amount := amt,
             ecl_rate := if r.outstanding_balance = 0 then none
                         else some (roundTo 4 (amt / r.outstanding_balance * 100)) }

/-- `np.random.choice(pool, size=k, replace=False)` on a list of row
indices: `k` successive distinct picks without replacement, each pick
consuming one draw of the source; `none` exactly when `k` exceeds the
pool size (NumPy raises a `ValueError` there). -/
def sample : List ℕ → ℕ → Rand → Option (List ℕ × Rand)
  | _, 0, g => some ([], g)
  | [], _ + 1, _ => none
  | a :: as, k + 1, g =>
    let i := g.nat g.pos % (a :: as).length
    let x := (a :: as).get ⟨i, Nat.mod_lt _ (Nat.succ_pos _)⟩
    match sample ((a :: as).eraseIdx i) k { g with pos := g.pos + 1 } with
    | none => none
    | some (sel, g') => some (x :: sel, g')

/-- Replace the record at row index `i` by `f` of it (pandas
`df.at[idx, col] = ...`); out-of-range indices leave the frame alone. -/
def updateAt (f : Loan → Loan) : List Loan → ℕ → List Loan
  | [], _ => []
  | r :: rest, 0 => f r :: rest
  | r :: rest, i + 1 => r :: updateAt f rest i

/-- Row indices of the records satisfying `p`, starting the count at
`i0` (`df[df[...] == v].index` on the default range index). -/
def eligIdxFrom (p : Loan → Bool) : List Loan → ℕ → List ℕ
  | [], _ => []
  | r :: rest, i0 =>
    if p r then i0 :: eligIdxFrom p rest (i0 + 1)
    else eligIdxFrom p rest (i0 + 1)

/-- Row indices of the records satisfying `p`. -/
def eligIdx (df : List Loan) (p : Loan → Bool) : List ℕ :=
  eligIdxFrom p df 0

/-- `np.random.choice([x, y], p=[p, 1-p])`: one draw, `x` with
probability `p`. -/
def choice2 (x y : ℕ) (p : ℚ) (g : Rand) : ℕ × Rand :=
  let u := g.nextU
  (if u.1 < p then x else y, u.2)

/-- Evolution pass 1 (source line 237): scale every balance by an
independent uniform factor in `[0.96, 0.99)`, one draw per row in row
order. -/
def amortize : List Loan → Rand → List Loan × Rand
  | [], g => ([], g)
  | r :: rest, g =>
    let u := uniformD (96/100) (99/100) g
    let tail := amortize rest u.2
    ({ r with outstanding_balance := r.outstanding_balance * u.1 } :: tail.1, tail.2)

/-- The score-drift subset selection (source lines 240–245): the
deterioration subset is drawn from all `n` row indices with size
`int(n * 0.25)`; the improvement subset is then drawn from the indices
not in the deterioration subset, with size `int(n * 0.15)` (`n` the
whole population).  Both selections happen before either mutation loop
runs. -/
def scoreDriftSelect (n : ℕ) (g : Rand) : Option ((List ℕ × List ℕ) × Rand) :=
  match sample (List.range n) (n * 25 / 100) g with
  | none => none
  | some (det, g1) =>
    match sample ((List.range n).filter fun i => decide (i ∉ det)) (n * 15 / 100) g1 with
    | none => none
    | some (imp, g2) => some ((det, imp), g2)

/-- Deterioration loop (source lines 248–250): per selected row, one
uniform draw in `[-25, -5)`, added to the score, floored at 300, then
truncated to an integer (`int` of a value ≥ 300 is the floor). -/
def applyDeterioration (df : List Loan) (g : Rand) : List ℕ → List Loan × Rand
  | [] => (df, g)
  | i :: rest =>
    let u := uniformD (-25) (-5) g
    let df1 := updateAt
      (fun r => { r with credit_score_current := ⌊max (300 : ℚ) (r.credit_score_current + u.1)⌋ })
      df i
    applyDeterioration df1 u.2 rest

/-- Improvement loop (source lines 253–255): per selected row, one
uniform draw in `[5, 20)`, added to the score, capped at 850, truncated
to an integer. -/
def applyImprovement (df : List Loan) (g : Rand) : List ℕ → List Loan × Rand
  | [] => (df, g)
  | i :: rest =>
    let u := uniformD 5 20 g
    let df1 := updateAt
      (fun r => { r with credit_score_current := ⌊min (850 : ℚ) (r.credit_score_current + u.1)⌋ })
      df i
    applyImprovement df1 u.2 rest

/-- Delinquency mutation loop shared by steps (a)–(c): per selected
row, one draw choosing `lo` (probability `p`) or `hi` as the new
`days_past_due`. -/
def applyDpdChoice (df : List Loan) (g : Rand) (lo hi : ℕ) (p : ℚ) :
    List ℕ → List Loan × Rand
  | [] => (df, g)
  | i :: rest =>
    let c := choice2 lo hi p g
    applyDpdChoice (updateAt (fun r => { r with days_past_due := c.1 }) df i) c.2 lo hi p rest

/-- Curing loop (source lines 283–290): deterministic bucket step-down
30→0, 60→30, ≥90→60; consumes no draws. -/
def applyCuring (df : List Loan) : List ℕ → List Loan
  | [] => df
  | i :: rest =>
    applyCuring
      (updateAt (fun r => { r with days_past_due :=
        if r.days_past_due = 30 then 0
        else if r.days_past_due = 60 then 30
        else if 90 ≤ r.days_past_due then 60
        else r.days_past_due }) df i)
      rest

/-- Delinquency step (a) (source lines 259–263): from rows now at
`dpd == 0`, select 8% without replacement; each becomes 30 (70%) or
60 (30%). -/
def stepA (df : List Loan) (g : Rand) : Option (List Loan × List ℕ × Rand) :=
  let el := eligIdx df fun r => r.days_past_due == 0
  match sample el (el.length * 8 / 100) g with
  | none => none
  | some (sel, g1) =>
    let p := applyDpdChoice df g1 30 60 (7/10) sel
    some (p.1, sel, p.2)

/-- The eligible pool of delinquency step (b): rows at `dpd == 30` in
the population as mutated by step (a). -/
def stepBPool (df : List Loan) : List ℕ :=
  eligIdx df fun r => r.days_past_due == 30

/-- Delinquency step (b) (source lines 266–270): from rows now at
`dpd == 30`, select 40%; each becomes 60 (60%) or 90 (40%). -/
def stepB (df : List Loan) (g : Rand) : Option (List Loan × List ℕ × Rand) :=
  let el := stepBPool df
  match sample el (el.length * 40 / 100) g with
  | none => none
  | some (sel, g1) =>
    let p := applyDpdChoice df g1 60 90 (6/10) sel
    some (p.1, sel, p.2)

/-- Delinquency step (c) (source lines 273–277): from rows now at
`dpd == 60`, select 50%; each becomes 90 (70%) or 120 (30%). -/
def stepC (df : List Loan) (g : Rand) : Option (List Loan × List ℕ × Rand) :=
  let el := eligIdx df fun r => r.days_past_due == 60
  match sample el (el.length * 50 / 100) g with
  | none => none
  | some (sel, g1) =>
    let p := applyDpdChoice df g1 90 120 (7/10) sel
    some (p.1, sel, p.2)

/-- Delinquency step (d) (source lines 280–290): from rows now at
`dpd > 0`, select 15% as curing. -/
def stepD (df : List Loan) (g : Rand) : Option (List Loan × List ℕ × Rand) :=
  let el := eligIdx df fun r => decide (0 < r.days_past_due)
  match sample el (el.length * 15 / 100) g with
  | none => none
  | some (sel, g1) => some (applyCuring df sel, sel, g1)

/-- `evolve_to_q4` (source lines 220–301): copy the frame with the Q4
reporting date, amortize, apply score drift, run the four cascading
delinquency steps — each on the population as mutated by the previous
one — round balances, then recompute PD/LGD, stage and ECL. -/
def evolve_to_q4 (df_q3 : List Loan) (g : Rand) : Option (List Loan) :=
  let df0 := df_q3.map fun r => { r with reporting_date := 20241231 }
  let a := amortize df0 g
  match scoreDriftSelect df0.length a.2 with
  | none => none
  | some (sel, g2) =>
    let b := applyDeterioration a.1 g2 sel.1
    let c := applyImprovement b.1 b.2 sel.2
    match stepA c.1 c.2 with
    | none => none
    | some (da, _, ga) =>
      match stepB da ga with
      | none => none
      | some (db, _, gb) =>
        match stepC db gb with
        | none => none
        | some (dc, _, gc) =>
          match stepD dc gc with
          | none => none
          | some (dd, _, gd) =>
            let df8 := dd.map fun r =>
              { r with outstanding_balance := roundTo 2 r.outstanding_balance }
            let p := calculate_pd_lgd df8 gd
            some (calculate_ecl (assign_ifrs9_stage p.1))

/-! ### Concrete fixtures for witnesses -/

/-- A fixed random-source state: unit draws all `1/2`, index draws all
`0` (one possible seeded stream). -/
def g0 : Rand := ⟨fun _ => 1/2, fun _ => 0, 0⟩

/-- The spec's worked example record: score 760, dpd 0, Mortgage,
balance 100000, stored `pd_12m = 0.0035`, `lgd = 0.20`, Stage 1. -/
def loan0 : Loan :=
  { loan_id := "LN0000001", reporting_date := 20240930,
    product_type := "Mortgage", outstanding_balance := 100000,
    credit_score_origination := 760, credit_score_current := 760,
    days_past_due := 0, pd_12m := 35/10000, pd_lifetime := 105/10000,
    lgd := 2/10, ifrs9_stage := 1, ecl_amount := 0, ecl_rate := none }

/-- `loan0` with a zero outstanding balance. -/
def loanZeroBal : Loan := { loan0 with outstanding_balance := 0 }

/-- A record with a product type outside the five known products. -/
def loanOtherProduct : Loan := { loan0 with product_type := "Boat Loan" }

/-- A defaulted record: 95 days past due with a perfect current score. -/
def loanDpd95 : Loan :=
  { loan0 with days_past_due := 95, credit_score_current := 850 }

/-- A record with a 120-point score drop and low PD, current on payments. -/
def loanScoreDrop : Loan :=
  { loan0 with credit_score_current := 640, credit_score_origination := 760,
               pd_12m := 1/100 }

/-! ### C1 — stored ECL invariant -/

/-- Claim C1: for every record of a produced snapshot, the stored
`ecl_amount` equals `round(outstanding_balance × (pd_12m if stage == 1
else pd_lifetime) × lgd, 2)` over the record's stored values — EAD is
the outstanding balance, Stage 1 uses the 12-month PD, Stages 2 and 3
the lifetime PD. -/
theorem c1_ecl_amount_invariant (df : List Loan) (r : Loan)
    (h : r ∈ calculate_ecl df) :
    r.ecl_amount = roundTo 2 (r.outstanding_balance *
      (if r.ifrs9_stage = 1 then r.pd_12m else r.pd_lifetime) * r.lgd) := by
  simp only [calculate_ecl, List.mem_map] at h
  obtain ⟨a, -, rfl⟩ := h
  by_cases hs : a.ifrs9_stage = 1 <;> simp [calc_ecl_row, hs]

/-- Witness for C1 at the spec's worked example (Stage 1, balance
100000, PD 0.0035, LGD 0.20). -/
theorem c1_witness :
    ((calculate_ecl [loan0]).headD loan0).ecl_amount
      = roundTo 2 (((calculate_ecl [loan0]).headD loan0).outstanding_balance *
          (if ((calculate_ecl [loan0]).headD loan0).ifrs9_stage = 1
           then ((calculate_ecl [loan0]).headD loan0).pd_12m
           else ((calculate_ecl [loan0]).headD loan0).pd_lifetime) *
          ((calculate_ecl [loan0]).headD loan0).lgd) :=
  c1_ecl_amount_invariant [loan0] _ (by decide)

/-! ### C2 — stage classification -/

/-- Claim C2: stage classification is a pure, deterministic,
first-match-wins function of `(days_past_due, score drop, pd_12m)`:
3 whenever `days_past_due > 90`; otherwise 2 whenever
`days_past_due ≥ 30` or the score drop exceeds 100 or `pd_12m > 0.03`;
otherwise 1. -/
theorem c2_stage_classification (r : Loan) :
    (90 < r.days_past_due → determine_stage r = 3) ∧
    (¬ 90 < r.days_past_due →
      (30 ≤ r.days_past_due
        ∨ 100 < r.credit_score_origination - r.credit_score_current
        ∨ 3/100 < r.pd_12m) →
      determine_stage r = 2) ∧
    (¬ 90 < r.days_past_due →
      ¬ (30 ≤ r.days_past_due
        ∨ 100 < r.credit_score_origination - r.credit_score_current
        ∨ 3/100 < r.pd_12m) →
      determine_stage r = 1) ∧
    (∀ s : Loan, r.days_past_due = s.days_past_due →
      r.credit_score_origination - r.credit_score_current
        = s.credit_score_origination - s.credit_score_current →
      r.pd_12m = s.pd_12m → determine_stage r = determine_stage s) := by
  refine ⟨fun h => by simp [determine_stage, h],
          fun h h2 => by simp [determine_stage, h, h2],
          fun h h2 => by simp [determine_stage, h, h2],
          fun s h1 h2 h3 => by simp only [determine_stage, h1, h2, h3]⟩

/-- Witness for C2: all three stage outcomes realized on concrete
records (dpd 95 → 3 even with a perfect score; dpd 0 with a 120-point
score drop → 2; `loan0` → 1). -/
theorem c2_witness :
    determine_stage loanDpd95 = 3
      ∧ determine_stage loanScoreDrop = 2
      ∧ determine_stage loan0 = 1 :=
  ⟨(c2_stage_classification _).1 (by decide),
   (c2_stage_classification _).2.1 (by decide)
     (by decide),
   (c2_stage_classification _).2.2.1 (by decide)
     (by decide)⟩

/-! ### C3 — 12-month PD refinement against the spec's tables -/

/-- The spec's `base_pd` table, written from the spec's words. -/
def base_pd_spec (score : ℤ) : ℚ :=
  if 750 ≤ score then 5/1000
  else if 700 ≤ score then 1/100
  else if 650 ≤ score then 25/1000
  else if 600 ≤ score then 5/100
  else 1/10

/-- The spec's `dpd_multiplier` table, written from the spec's words. -/
def dpd_multiplier_spec (dpd : ℕ) : ℚ :=
  if dpd = 0 then 1
  else if dpd ≤ 30 then 2
  else if dpd ≤ 90 then 4
  else 8

/-- The spec's `product_adjustment` table, written from the spec's
words (its order: Mortgage, AutoLoan, SMELoan, PersonalLoan,
CreditCard; unknown product → 1). -/
def product_adjustment_spec (p : String) : ℚ :=
  if p = "Mortgage" then 7/10
  else if p = "Auto Loan" then 9/10
  else if p = "SME Loan" then 13/10
  else if p = "Personal Loan" then 12/10
  else if p = "Credit Card" then 15/10
  else 1

/-- The code's product-adjustment lookup chain agrees with the spec's
table (the two chains test the same five products in different
orders). -/
lemma product_chain_eq_spec (p : String) :
    (if p = "Mortgage" then (7:ℚ)/10
     else if p = "Auto Loan" then 9/10
     else if p = "Personal Loan" then 12/10
     else if p = "Credit Card" then 15/10
     else if p = "SME Loan" then 13/10
     else 1) = product_adjustment_spec p := by
  unfold product_adjustment_spec
  by_cases h1 : p = "Mortgage" <;>
    by_cases h2 : p = "Auto Loan" <;>
      by_cases h3 : p = "Personal Loan" <;>
        by_cases h4 : p = "Credit Card" <;>
          by_cases h5 : p = "SME Loan" <;>
            simp_all

/-- Claim C3: the code's 12-month PD equals
`base_pd × dpd_multiplier × product_adjustment` clamped to at most 1,
with exactly the spec's tabulated values. -/
theorem c3_pd12_refines_spec_tables (r : Loan) :
    calculate_12m_pd r
      = min (base_pd_spec r.credit_score_current
              * dpd_multiplier_spec r.days_past_due
              * product_adjustment_spec r.product_type) 1 := by
  simp only [calculate_12m_pd, base_pd_spec, dpd_multiplier_spec]
  rw [product_chain_eq_spec]

/-! ### C4 — zero balance is silently coerced, not rejected -/

/-- Claim C4 evidence: the code raises no error on a zero outstanding
balance.  Feeding a zero-balance record to the ECL calculator silently
produces a record with `ecl_amount = 0` and a NaN `ecl_rate` (modelled
`none`); the snapshot computation completes. -/
theorem c4_zero_balance_not_rejected :
    calculate_ecl [loanZeroBal]
      = [{ loanZeroBal with ecl_amount := 0, ecl_rate := none }] := by
  decide

/-! ### C10 — LGD consumes exactly five draws for every record -/

/-- Claim C10: `calculate_lgd` eagerly evaluates all five per-product
uniform draws, advancing the shared source by exactly five positions
regardless of the product (an unknown product still consumes five
draws before returning the constant 0.50), and returns the single draw
corresponding to the record's own product. -/
theorem c10_lgd_five_draws (r : Loan) (g : Rand) :
    ((calculate_lgd r g).2.pos = g.pos + 5) ∧
    ((calculate_lgd r g).2.uni = g.uni) ∧
    ((calculate_lgd r g).2.nat = g.nat) ∧
    (r.product_type = "Mortgage" →
      (calculate_lgd r g).1 = 15/100 + (30/100 - 15/100) * g.uni g.pos) ∧
    (r.product_type = "Auto Loan" →
      (calculate_lgd r g).1 = 25/100 + (40/100 - 25/100) * g.uni (g.pos + 1)) ∧
    (r.product_type = "Personal Loan" →
      (calculate_lgd r g).1 = 50/100 + (70/100 - 50/100) * g.uni (g.pos + 2)) ∧
    (r.product_type = "Credit Card" →
      (calculate_lgd r g).1 = 60/100 + (80/100 - 60/100) * g.uni (g.pos + 3)) ∧
    (r.product_type = "SME Loan" →
      (calculate_lgd r g).1 = 40/100 + (60/100 - 40/100) * g.uni (g.pos + 4)) ∧
    (r.product_type ∉ (["Mortgage", "Auto Loan", "Personal Loan",
        "Credit Card", "SME Loan"] : List String) →
      (calculate_lgd r g).1 = 1/2) := by
  refine ⟨rfl, rfl, rfl,
          fun h => by simp only [calculate_lgd, uniformD, Rand.nextU, h,
            String.reduceEq, reduceIte],
          fun h => by simp only [calculate_lgd, uniformD, Rand.nextU, h,
            String.reduceEq, reduceIte],
          fun h => by simp only [calculate_lgd, uniformD, Rand.nextU, h,
            String.reduceEq, reduceIte],
          fun h => by simp only [calculate_lgd, uniformD, Rand.nextU, h,
            String.reduceEq, reduceIte],
          fun h => by simp only [calculate_lgd, uniformD, Rand.nextU, h,
            String.reduceEq, reduceIte],
          fun h => ?_⟩
  simp only [List.mem_cons, List.mem_singleton, not_or] at h
  simp only [calculate_lgd, uniformD, Rand.nextU, if_neg h.1, if_neg h.2.1,
    if_neg h.2.2.1, if_neg h.2.2.2.1, if_neg h.2.2.2.2.1]

/-- Witness for C10: an unknown product still advances the source by
five draws and gets LGD 0.50; a Mortgage gets the first of the five
draws. -/
theorem c10_witness :
    (calculate_lgd loanOtherProduct g0).2.pos = g0.pos + 5
      ∧ (calculate_lgd loanOtherProduct g0).1 = 1/2
      ∧ (calculate_lgd loan0 g0).1 = 15/100 + (30/100 - 15/100) * g0.uni g0.pos :=
  ⟨(c10_lgd_five_draws loanOtherProduct g0).1,
   (c10_lgd_five_draws loanOtherProduct g0).2.2.2.2.2.2.2.2
     (by decide),
   (c10_lgd_five_draws loan0 g0).2.2.2.1 rfl⟩

/-! ### C9 — lifetime PD -/

/-- Rounding an integer-valued rational is the identity. -/
lemma pyRound_intCast (k : ℤ) : pyRound (k : ℚ) = k := by
  simp [pyRound]

/-- `roundTo n` is the identity on rationals that are integer multiples
of `10^(-n)`. -/
lemma roundTo_eq_self {n : ℕ} {q : ℚ} (h : ∃ k : ℤ, q * 10 ^ n = (k : ℚ)) :
    roundTo n q = q := by
  obtain ⟨k, hk⟩ := h
  have hpow : ((10 : ℚ) ^ n) ≠ 0 := by positivity
  rw [roundTo, hk, pyRound_intCast, ← hk, mul_div_assoc, div_self hpow, mul_one]

/-- A product `b × m × a` with `b` a multiple of `1/1000`, `m` an
integer and `a` a multiple of `1/10`, clamped at 1, is an integer
multiple of `10^(-6)`. -/
lemma min_prod_int_scaled {b m a : ℚ}
    (hb : ∃ i : ℤ, b * 1000 = (i : ℚ)) (hm : ∃ i : ℤ, m = (i : ℚ))
    (ha : ∃ i : ℤ, a * 10 = (i : ℚ)) :
    ∃ k : ℤ, min (b * m * a) 1 * 10 ^ 6 = (k : ℚ) := by
  obtain ⟨i, hi⟩ := hb
  obtain ⟨j, hj⟩ := hm
  obtain ⟨l, hl⟩ := ha
  rcases le_total (b * m * a) 1 with h | h
  · refine ⟨i * j * l * 100, ?_⟩
    rw [min_eq_left h]
    push_cast
    rw [← hi, ← hj, ← hl]
    ring
  · exact ⟨10 ^ 6, by rw [min_eq_right h]; norm_num⟩

/-- The raw 12-month PD is an integer multiple of `10^(-6)`, so the
6-decimal serialization rounding stores it unchanged. -/
lemma calculate_12m_pd_int_scaled (r : Loan) :
    ∃ k : ℤ, calculate_12m_pd r * 10 ^ 6 = (k : ℚ) := by
  simp only [calculate_12m_pd]
  refine min_prod_int_scaled ?_ ?_ ?_
  · split_ifs
    · exact ⟨5, by norm_num⟩
    · exact ⟨10, by norm_num⟩
    · exact ⟨25, by norm_num⟩
    · exact ⟨50, by norm_num⟩
    · exact ⟨100, by norm_num⟩
  · split_ifs
    · exact ⟨1, by norm_num⟩
    · exact ⟨2, by norm_num⟩
    · exact ⟨4, by norm_num⟩
    · exact ⟨8, by norm_num⟩
  · split_ifs
    · exact ⟨7, by norm_num⟩
    · exact ⟨9, by norm_num⟩
    · exact ⟨12, by norm_num⟩
    · exact ⟨15, by norm_num⟩
    · exact ⟨13, by norm_num⟩
    · exact ⟨10, by norm_num⟩

/-- The raw 12-month PD is nonnegative. -/
lemma calculate_12m_pd_nonneg (r : Loan) : 0 ≤ calculate_12m_pd r := by
  simp only [calculate_12m_pd]
  refine le_min (mul_nonneg (mul_nonneg ?_ ?_) ?_) one_pos.le <;>
    split_ifs <;> norm_num

/-- The raw 12-month PD is at most 1 (the clamp). -/
lemma calculate_12m_pd_le_one (r : Loan) : calculate_12m_pd r ≤ 1 :=
  min_le_right _ _

/-- The raw lifetime PD is also an integer multiple of `10^(-6)`. -/
lemma calculate_lifetime_pd_int_scaled (r : Loan) :
    ∃ k : ℤ, calculate_lifetime_pd (calculate_12m_pd r) * 10 ^ 6 = (k : ℚ) := by
  obtain ⟨k, hk⟩ := calculate_12m_pd_int_scaled r
  rcases le_total (calculate_12m_pd r * 3) 1 with h | h
  · refine ⟨3 * k, ?_⟩
    rw [calculate_lifetime_pd, min_eq_left h]
    push_cast
    rw [← hk]
    ring
  · exact ⟨10 ^ 6, by rw [calculate_lifetime_pd, min_eq_right h]; norm_num⟩

/-- Claim C9: in every record produced by the PD/LGD pass, the stored
`pd_lifetime` equals `min(pd_12m × 3, 1)` of the stored `pd_12m` (the
6-decimal rounding of both PDs is exact on these values), and
consequently `pd_lifetime ≥ pd_12m`. -/
theorem c9_pd_lifetime_invariant (df : List Loan) (g : Rand)
    (out : List Loan) (gout : Rand)
    (h : calculate_pd_lgd df g = (out, gout)) :
    ∀ r ∈ out, r.pd_lifetime = min (r.pd_12m * 3) 1 ∧ r.pd_12m ≤ r.pd_lifetime := by
  induction df generalizing g out gout with
  | nil =>
    simp only [calculate_pd_lgd] at h
    obtain ⟨rfl, -⟩ := Prod.mk.injEq .. ▸ h
    intro r hr
    exact absurd hr (List.not_mem_nil r)
  | cons a rest ih =>
    simp only [calculate_pd_lgd] at h
    obtain ⟨rfl, -⟩ := Prod.mk.injEq .. ▸ h
    intro r hr
    rcases List.mem_cons.mp hr with rfl | hr
    · have h12 : roundTo 6 (calculate_12m_pd a) = calculate_12m_pd a :=
        roundTo_eq_self (calculate_12m_pd_int_scaled a)
      have hlife : roundTo 6 (calculate_lifetime_pd (calculate_12m_pd a))
          = calculate_lifetime_pd (calculate_12m_pd a) :=
        roundTo_eq_self (calculate_lifetime_pd_int_scaled a)
      constructor
      · show roundTo 6 (calculate_lifetime_pd (calculate_12m_pd a))
            = min (roundTo 6 (calculate_12m_pd a) * 3) 1
        rw [h12, hlife, calculate_lifetime_pd]
      · show roundTo 6 (calculate_12m_pd a)
            ≤ roundTo 6 (calculate_lifetime_pd (calculate_12m_pd a))
        rw [h12, hlife, calculate_lifetime_pd]
        refine le_min ?_ (calculate_12m_pd_le_one a)
        linarith [calculate_12m_pd_nonneg a]
    · exact ih _ _ _ rfl r hr

/-- Witness for C9 on a concrete one-record run. -/
theorem c9_witness :
    (((calculate_pd_lgd [loan0] g0).1.headD loan0).pd_lifetime
      = min (((calculate_pd_lgd [loan0] g0).1.headD loan0).pd_12m * 3) 1)
    ∧ ((calculate_pd_lgd [loan0] g0).1.headD loan0).pd_12m
        ≤ ((calculate_pd_lgd [loan0] g0).1.headD loan0).pd_lifetime :=
  c9_pd_lifetime_invariant [loan0] g0 (calculate_pd_lgd [loan0] g0).1
    (calculate_pd_lgd [loan0] g0).2 rfl _ (by decide)

/-! ### Sampler correctness lemmas -/

/-- Members of `l.eraseIdx i` are members of `l`. -/
lemma mem_of_mem_eraseIdx_nat : ∀ (l : List ℕ) (i x : ℕ),
    x ∈ l.eraseIdx i → x ∈ l
  | [], i, x, h => by simp [List.eraseIdx] at h
  | a :: as, 0, x, h => List.mem_cons_of_mem a h
  | a :: as, n + 1, x, h => by
    rcases List.mem_cons.mp h with rfl | h2
    · exact List.mem_cons_self _ _
    · exact List.mem_cons_of_mem _ (mem_of_mem_eraseIdx_nat as n x h2)

/-- `eraseIdx` preserves `Nodup`. -/
lemma nodup_eraseIdx_nat : ∀ (l : List ℕ) (i : ℕ),
    l.Nodup → (l.eraseIdx i).Nodup
  | [], _, _ => List.nodup_nil
  | a :: as, 0, h => (List.nodup_cons.mp h).2
  | a :: as, n + 1, h => by
    obtain ⟨ha, has⟩ := List.nodup_cons.mp h
    exact List.nodup_cons.mpr
      ⟨fun hmem => ha (mem_of_mem_eraseIdx_nat as n a hmem),
       nodup_eraseIdx_nat as n has⟩

/-- On a duplicate-free list, the element at position `i` does not
survive erasing position `i`. -/
lemma get_not_mem_eraseIdx_nat : ∀ (l : List ℕ) (i : ℕ) (h : i < l.length),
    l.Nodup → l.get ⟨i, h⟩ ∉ l.eraseIdx i
  | [], i, h, _ => absurd h (by simp)
  | a :: as, 0, _, hnd => (List.nodup_cons.mp hnd).1
  | a :: as, n + 1, h, hnd => by
    intro hmem
    rcases List.mem_cons.mp hmem with heq | hmem2
    · have h3 : (a :: as).get ⟨n + 1, h⟩ ∈ as := by
        have h4 : (a :: as).get ⟨n + 1, h⟩
            = as.get ⟨n, Nat.lt_of_succ_lt_succ h⟩ := rfl
        rw [h4]
        exact List.get_mem _ _ _
      exact (List.nodup_cons.mp hnd).1 (heq ▸ h3)
    · exact get_not_mem_eraseIdx_nat as n (Nat.lt_of_succ_lt_succ h)
        (List.nodup_cons.mp hnd).2 hmem2

/-- A successful `sample pool k` returns exactly `k` picks, all from
the pool, without replacement (distinct) whenever the pool is
duplicate-free. -/
lemma sample_spec : ∀ (k : ℕ) (pool : List ℕ) (g : Rand)
    (sel : List ℕ) (gout : Rand), sample pool k g = some (sel, gout) →
    sel.length = k ∧ (∀ x ∈ sel, x ∈ pool) ∧ (pool.Nodup → sel.Nodup) := by
  intro k
  induction k with
  | zero =>
    intro pool g sel gout h
    simp only [sample, Option.some.injEq, Prod.mk.injEq] at h
    obtain ⟨rfl, -⟩ := h
    exact ⟨rfl, by simp, fun _ => List.nodup_nil⟩
  | succ n ih =>
    intro pool g sel gout h
    cases pool with
    | nil => simp [sample] at h
    | cons a as =>
      rw [sample] at h
      rcases hrec : sample ((a :: as).eraseIdx (g.nat g.pos % (a :: as).length))
          n { g with pos := g.pos + 1 } with _ | p
      · rw [hrec] at h
        simp at h
      · obtain ⟨sel2, g2⟩ := p
        rw [hrec] at h
        simp only [Option.some.injEq, Prod.mk.injEq] at h
        obtain ⟨rfl, -⟩ := h
        obtain ⟨hlen, hmem, hnd⟩ := ih _ _ _ _ hrec
        refine ⟨by simp [hlen], ?_, ?_⟩
        · intro x hx
          rcases List.mem_cons.mp hx with rfl | hx2
          · exact List.get_mem _ _ _
          · exact mem_of_mem_eraseIdx_nat _ _ _ (hmem x hx2)
        · intro hpool
          refine List.nodup_cons.mpr ⟨fun hmem2 => ?_, hnd (nodup_eraseIdx_nat _ _ hpool)⟩
          exact get_not_mem_eraseIdx_nat (a :: as) _
            (Nat.mod_lt _ (Nat.succ_pos _)) hpool (hmem _ hmem2)

/-! ### C5 — score-drift subset sizes -/

/-- Claim C5 counterexample: on a 20-loan population the code's
improvement subset has 3 elements (`int(20 × 0.15)`), not
`int((20 − 5) × 0.15) = 2` as the claim's "15% of the remaining
population" would require. -/
theorem c5_counterexample :
    ((scoreDriftSelect 20 g0).map fun x => x.1.2.length) = some 3
      ∧ ((scoreDriftSelect 20 g0).map fun x => (20 - x.1.1.length) * 15 / 100)
          = some 2
      ∧ (3 : ℕ) ≠ 2 :=
  ⟨by decide, by decide, by decide⟩

/-- Claim C5 amended: in the credit-score-drift pass, the
deterioration and improvement subsets are disjoint and drawn without
replacement; the deterioration subset has size `int(n × 0.25)`, and
the improvement subset is drawn from the loans remaining after
removing the deterioration subset but has size `int(n × 0.15)` — 15%
of the whole population, not of the remaining 75%. -/
theorem c5_amended_score_drift_selection (n : ℕ) (g : Rand)
    (det imp : List ℕ) (gout : Rand)
    (h : scoreDriftSelect n g = some ((det, imp), gout)) :
    det.length = n * 25 / 100 ∧ imp.length = n * 15 / 100
      ∧ det.Nodup ∧ imp.Nodup
      ∧ (∀ i ∈ imp, i ∉ det)
      ∧ (∀ i ∈ det, i < n) ∧ (∀ i ∈ imp, i < n) := by
  unfold scoreDriftSelect at h
  split at h
  · exact absurd h (by simp)
  next det2 g2 h1 =>
    split at h
    · exact absurd h (by simp)
    next imp2 g3 h2 =>
      simp only [Option.some.injEq, Prod.mk.injEq] at h
      obtain ⟨⟨rfl, rfl⟩, -⟩ := h
      obtain ⟨hdlen, hdmem, hdnd⟩ := sample_spec _ _ _ _ _ h1
      obtain ⟨hilen, himem, hind⟩ := sample_spec _ _ _ _ _ h2
      refine ⟨hdlen, hilen, hdnd (List.nodup_range n),
        hind (List.Nodup.filter _ (List.nodup_range n)),
        fun i hi => ?_, fun i hi => List.mem_range.mp (hdmem i hi),
        fun i hi => ?_⟩
      · have h3 := List.mem_filter.mp (himem i hi)
        exact of_decide_eq_true h3.2
      · exact List.mem_range.mp (List.mem_filter.mp (himem i hi)).1

/-- Witness for the amended C5 at the concrete 20-loan selection. -/
theorem c5_amended_witness :
    ((scoreDriftSelect 20 g0).getD (([], []), g0)).1.1.length = 20 * 25 / 100
      ∧ ((scoreDriftSelect 20 g0).getD (([], []), g0)).1.2.length = 20 * 15 / 100 :=
  ⟨(c5_amended_score_drift_selection 20 g0
      ((scoreDriftSelect 20 g0).getD (([], []), g0)).1.1
      ((scoreDriftSelect 20 g0).getD (([], []), g0)).1.2
      ((scoreDriftSelect 20 g0).getD (([], []), g0)).2 rfl).1,
   (c5_amended_score_drift_selection 20 g0
      ((scoreDriftSelect 20 g0).getD (([], []), g0)).1.1
      ((scoreDriftSelect 20 g0).getD (([], []), g0)).1.2
      ((scoreDriftSelect 20 g0).getD (([], []), g0)).2 rfl).2.1⟩

/-! ### C6 — cascading delinquency-step eligibility -/

/-- A row whose record satisfies `p` is listed by `eligIdxFrom`
(indices shifted by the start `i0`). -/
lemma eligIdxFrom_mem_of_get? (p : Loan → Bool) :
    ∀ (df : List Loan) (k i0 : ℕ) (r : Loan),
      df.get? k = some r → p r = true → (i0 + k) ∈ eligIdxFrom p df i0
  | [], k, _, _, hget, _ => by simp at hget
  | a :: rest, 0, i0, r, hget, hp => by
    simp only [List.get?_cons_zero, Option.some.injEq] at hget
    subst hget
    simp [eligIdxFrom, hp]
  | a :: rest, k + 1, i0, r, hget, hp => by
    simp only [List.get?_cons_succ] at hget
    have h2 := eligIdxFrom_mem_of_get? p rest k (i0 + 1) r hget hp
    have harith : i0 + (k + 1) = (i0 + 1) + k := by omega
    rw [harith]
    simp only [eligIdxFrom]
    split
    · exact List.mem_cons_of_mem _ h2
    · exact h2

/-- A row whose record satisfies `p` is in `eligIdx df p`. -/
lemma eligIdx_mem_of_get? (df : List Loan) (p : Loan → Bool) (i : ℕ)
    (r : Loan) (hget : df.get? i = some r) (hp : p r = true) :
    i ∈ eligIdx df p := by
  have h := eligIdxFrom_mem_of_get? p df i 0 r hget hp
  simpa [eligIdx] using h

/-- Claim C6: the delinquency steps cascade.  Step (b)'s eligible pool
is taken on the population as mutated by step (a), so a loan selected
in step (a) and set to `days_past_due = 30` is a member of step (b)'s
eligible pool within the same evolution call (and may therefore be
mutated again by a later step of the same call). -/
theorem c6_cascade_step_a_feeds_step_b (df : List Loan) (g : Rand)
    (df4 : List Loan) (selA : List ℕ) (gout : Rand)
    (h : stepA df g = some (df4, selA, gout))
    (i : ℕ) (hi : i ∈ selA) (r : Loan)
    (hr : df4.get? i = some r) (h30 : r.days_past_due = 30) :
    i ∈ stepBPool df4 :=
  eligIdx_mem_of_get? df4 _ i r hr (by simp [h30])

/-- Thirteen current loans: enough for step (a) to select one
(`int(13 × 0.08) = 1`). -/
def pop13 : List Loan := List.replicate 13 loan0

/-- Witness for C6: on `pop13`, step (a) selects row 0 and sets it to
30 days past due; row 0 is then in step (b)'s eligible pool. -/
theorem c6_witness :
    0 ∈ stepBPool ((stepA pop13 g0).getD ([], [], g0)).1 :=
  c6_cascade_step_a_feeds_step_b pop13 g0
    ((stepA pop13 g0).getD ([], [], g0)).1
    ((stepA pop13 g0).getD ([], [], g0)).2.1
    ((stepA pop13 g0).getD ([], [], g0)).2.2
    rfl 0 (by decide)
    { loan0 with days_past_due := 30 }
    (by decide) rfl

/-! ### C7 — evolution determinism under a fixed seed -/

/-- Claim C7: evolution is deterministic given the seed.  The random
source is explicit state, so two evolution runs on the same input
snapshot with identically-seeded sources (the fixed draw order is the
order the embedding threads the source through amortization, score
drift, then delinquency steps a–d) produce identical output
snapshots. -/
theorem c7_evolution_deterministic (df : List Loan) (g1 g2 : Rand)
    (h : g1 = g2) : evolve_to_q4 df g1 = evolve_to_q4 df g2 := by
  rw [h]

/-- A two-loan portfolio for concrete evolution runs. -/
def pop2 : List Loan :=
  [loan0,
   { loan0 with loan_id := "LN0000002", product_type := "Credit Card",
                days_past_due := 60, credit_score_current := 580,
                outstanding_balance := 2500 }]

/-- Witness for C7: two identically-seeded runs on `pop2` coincide. -/
theorem c7_witness : evolve_to_q4 pop2 g0 = evolve_to_q4 pop2 g0 :=
  c7_evolution_deterministic pop2 g0 g0 rfl

/-! ### C8 — population conservation across one evolution call -/

/-- `updateAt` preserves the `loan_id` column when the update does. -/
lemma updateAt_map_loan_id (f : Loan → Loan)
    (hf : ∀ r, (f r).loan_id = r.loan_id) :
    ∀ (df : List Loan) (i : ℕ),
      (updateAt f df i).map Loan.loan_id = df.map Loan.loan_id
  | [], _ => rfl
  | r :: rest, 0 => by simp [updateAt, hf]
  | r :: rest, i + 1 => by
    simp [updateAt, updateAt_map_loan_id f hf rest i]

/-- A per-record field rewrite preserves the `loan_id` column. -/
lemma map_map_loan_id (f : Loan → Loan)
    (hf : ∀ r, (f r).loan_id = r.loan_id) :
    ∀ df : List Loan, (df.map f).map Loan.loan_id = df.map Loan.loan_id
  | [] => rfl
  | r :: rest => by simp [hf, map_map_loan_id f hf rest]

/-- Amortization preserves the `loan_id` column. -/
lemma amortize_map_loan_id : ∀ (df : List Loan) (g : Rand),
    ((amortize df g).1).map Loan.loan_id = df.map Loan.loan_id
  | [], _ => rfl
  | r :: rest, g => by simp [amortize, amortize_map_loan_id rest]

/-- The deterioration loop preserves the `loan_id` column. -/
lemma applyDeterioration_map_loan_id : ∀ (sel : List ℕ) (df : List Loan) (g : Rand),
    ((applyDeterioration df g sel).1).map Loan.loan_id = df.map Loan.loan_id
  | [], _, _ => rfl
  | i :: rest, df, g => by
    rw [applyDeterioration, applyDeterioration_map_loan_id rest]
    apply updateAt_map_loan_id
    intro r
    rfl

/-- The improvement loop preserves the `loan_id` column. -/
lemma applyImprovement_map_loan_id : ∀ (sel : List ℕ) (df : List Loan) (g : Rand),
    ((applyImprovement df g sel).1).map Loan.loan_id = df.map Loan.loan_id
  | [], _, _ => rfl
  | i :: rest, df, g => by
    rw [applyImprovement, applyImprovement_map_loan_id rest]
    apply updateAt_map_loan_id
    intro r
    rfl

/-- The delinquency-choice loop preserves the `loan_id` column. -/
lemma applyDpdChoice_map_loan_id :
    ∀ (sel : List ℕ) (df : List Loan) (g : Rand) (lo hi : ℕ) (p : ℚ),
      ((applyDpdChoice df g lo hi p sel).1).map Loan.loan_id = df.map Loan.loan_id
  | [], _, _, _, _, _ => rfl
  | i :: rest, df, g, lo, hi, p => by
    rw [applyDpdChoice, applyDpdChoice_map_loan_id rest]
    apply updateAt_map_loan_id
    intro r
    rfl

/-- The curing loop preserves the `loan_id` column. -/
lemma applyCuring_map_loan_id : ∀ (sel : List ℕ) (df : List Loan),
    (applyCuring df sel).map Loan.loan_id = df.map Loan.loan_id
  | [], _ => rfl
  | i :: rest, df => by
    rw [applyCuring, applyCuring_map_loan_id rest]
    apply updateAt_map_loan_id
    intro r
    rfl

/-- The PD/LGD pass preserves the `loan_id` column. -/
lemma calculate_pd_lgd_map_loan_id : ∀ (df : List Loan) (g : Rand),
    ((calculate_pd_lgd df g).1).map Loan.loan_id = df.map Loan.loan_id
  | [], _ => rfl
  | r :: rest, g => by
    simp [calculate_pd_lgd, calculate_pd_lgd_map_loan_id rest]

/-- Stage assignment preserves the `loan_id` column. -/
lemma assign_ifrs9_stage_map_loan_id (df : List Loan) :
    (assign_ifrs9_stage df).map Loan.loan_id = df.map Loan.loan_id := by
  unfold assign_ifrs9_stage
  apply map_map_loan_id
  intro r
  rfl

/-- ECL calculation preserves the `loan_id` column. -/
lemma calculate_ecl_map_loan_id (df : List Loan) :
    (calculate_ecl df).map Loan.loan_id = df.map Loan.loan_id := by
  unfold calculate_ecl
  apply map_map_loan_id
  intro r
  rfl

/-- Delinquency step (a) preserves the `loan_id` column. -/
lemma stepA_map_loan_id (df : List Loan) (g : Rand) (df' : List Loan)
    (sel : List ℕ) (g' : Rand) (h : stepA df g = some (df', sel, g')) :
    df'.map Loan.loan_id = df.map Loan.loan_id := by
  simp only [stepA] at h
  split at h
  · exact absurd h (by simp)
  · simp only [Option.some.injEq, Prod.mk.injEq] at h
    obtain ⟨rfl, -⟩ := h
    exact applyDpdChoice_map_loan_id _ _ _ _ _ _

/-- Delinquency step (b) preserves the `loan_id` column. -/
lemma stepB_map_loan_id (df : List Loan) (g : Rand) (df' : List Loan)
    (sel : List ℕ) (g' : Rand) (h : stepB df g = some (df', sel, g')) :
    df'.map Loan.loan_id = df.map Loan.loan_id := by
  simp only [stepB] at h
  split at h
  · exact absurd h (by simp)
  · simp only [Option.some.injEq, Prod.mk.injEq] at h
    obtain ⟨rfl, -⟩ := h
    exact applyDpdChoice_map_loan_id _ _ _ _ _ _

/-- Delinquency step (c) preserves the `loan_id` column. -/
lemma stepC_map_loan_id (df : List Loan) (g : Rand) (df' : List Loan)
    (sel : List ℕ) (g' : Rand) (h : stepC df g = some (df', sel, g')) :
    df'.map Loan.loan_id = df.map Loan.loan_id := by
  simp only [stepC] at h
  split at h
  · exact absurd h (by simp)
  · simp only [Option.some.injEq, Prod.mk.injEq] at h
    obtain ⟨rfl, -⟩ := h
    exact applyDpdChoice_map_loan_id _ _ _ _ _ _

/-- Delinquency step (d) preserves the `loan_id` column. -/
lemma stepD_map_loan_id (df : List Loan) (g : Rand) (df' : List Loan)
    (sel : List ℕ) (g' : Rand) (h : stepD df g = some (df', sel, g')) :
    df'.map Loan.loan_id = df.map Loan.loan_id := by
  simp only [stepD] at h
  split at h
  · exact absurd h (by simp)
  · simp only [Option.some.injEq, Prod.mk.injEq] at h
    obtain ⟨rfl, -⟩ := h
    exact applyCuring_map_loan_id _ _

/-- Claim C8: one evolution call conserves the population — the output
snapshot has the same `loan_id` column (same ids, same order, hence
the same id set) and the same record count as the input; no loan is
created or destroyed by any pass. -/
theorem c8_population_conserved (df : List Loan) (g : Rand)
    (out : List Loan) (h : evolve_to_q4 df g = some out) :
    out.map Loan.loan_id = df.map Loan.loan_id ∧ out.length = df.length := by
  have hmap : out.map Loan.loan_id = df.map Loan.loan_id := by
    simp only [evolve_to_q4] at h
    split at h
    · exact absurd h (by simp)
    next sel g2 hsd =>
      split at h
      · exact absurd h (by simp)
      next da selA ga hA =>
        split at h
        · exact absurd h (by simp)
        next db selB gb hB =>
          split at h
          · exact absurd h (by simp)
          next dc selC gc hC =>
            split at h
            · exact absurd h (by simp)
            next dd selD gd hD =>
              obtain rfl := Option.some.inj h
              have hdate :
                  ((df.map fun r =>
                    { r with reporting_date := 20241231 }).map Loan.loan_id)
                    = df.map Loan.loan_id := by
                apply map_map_loan_id
                intro r
                rfl
              have hround : ∀ l : List Loan,
                  ((l.map fun r =>
                    { r with outstanding_balance :=
                        roundTo 2 r.outstanding_balance }).map Loan.loan_id)
                    = l.map Loan.loan_id := by
                intro l
                apply map_map_loan_id
                intro r
                rfl
              rw [calculate_ecl_map_loan_id, assign_ifrs9_stage_map_loan_id,
                calculate_pd_lgd_map_loan_id, hround,
                stepD_map_loan_id _ _ _ _ _ hD,
                stepC_map_loan_id _ _ _ _ _ hC,
                stepB_map_loan_id _ _ _ _ _ hB,
                stepA_map_loan_id _ _ _ _ _ hA,
                applyImprovement_map_loan_id,
                applyDeterioration_map_loan_id,
                amortize_map_loan_id, hdate]
  refine ⟨hmap, ?_⟩
  have h1 : out.length = (out.map Loan.loan_id).length := (List.length_map _ _).symm
  rw [h1, hmap, List.length_map]

/-- Witness for C8: a concrete evolution run on `pop2` keeps both loan
ids in order and the record count. -/
theorem c8_witness :
    ((evolve_to_q4 pop2 g0).getD []).map Loan.loan_id = pop2.map Loan.loan_id
      ∧ ((evolve_to_q4 pop2 g0).getD []).length = pop2.length :=
  c8_population_conserved pop2 g0 _ (by decide)

end IFRS9
